import Mathlib

/-!
Shallow embedding of the Authentication & Session Security Engine of the
`the-circle` backend (src/backend/src/services/auth.rs,
src/backend/src/services/security.rs, src/backend/src/models/user.rs).

Timestamps are epoch seconds (`Int`, embedding chrono `DateTime<Utc>`), ids
are `Nat` (embedding `Uuid`), and the Postgres database is an explicit
record of row lists.  Stateful operations take the database state and
return it alongside the `Except` result; randomness (salts, opaque tokens)
and `Utc::now()` are explicit parameters; fault injection on the
destruction transaction's statements is a `DStep → Bool` flag.
-/

namespace TheCircle

/-- Epoch-seconds timestamp, embedding chrono `DateTime<Utc>`. -/
abbrev Timestamp := Int

/-! ### Credential hasher (auth.rs `hash_password` / `verify_password`)

A PHC string produced by `argon2::hash_password` embeds the salt and the
digest; we model it as the pair of the two.  The Argon2 digest itself is an
abstract deterministic function of password and salt. -/

/-- Abstract Argon2id digest of a password under a salt: deterministic in
both arguments, as the memory-hard hash is.  The concrete shape is
irrelevant to every theorem below, which use only its determinism. -/
def argon2Hash (password salt : String) : String :=
  password ++ ("&argon2&" ++ salt)

/-- A PHC-format hash string: the embedded salt plus the digest
(`$argon2id$v=19$m=...,t=...,p=...$salt$digest`). -/
structure PhcString where
  salt : String
  output : String
deriving DecidableEq, Repr

/-- auth.rs `hash_password`: fresh salt (here an explicit parameter, the
source draws it from `rand::thread_rng`), digest embedded in the returned
string. -/
def hash_password (password salt : String) : PhcString :=
  { salt := salt, output := argon2Hash password salt }

/-- auth.rs `verify_password`: parse the PHC string (always succeeds on a
structured `PhcString`), recompute the digest with the embedded salt and
compare. -/
def verify_password (password : String) (hash : PhcString) : Bool :=
  argon2Hash password hash.salt == hash.output

/-! ### Token issuer / verifier (auth.rs `generate_access_token`, `verify_token`) -/

/-- auth.rs `Claims`: the JWT payload. -/
structure Claims where
  sub : String
  exp : Int
  iat : Int
  membership_tier : String
  mfa_verified : Bool
deriving DecidableEq, Repr

/-- A compact JWS token: payload plus HMAC-SHA256 signature segment.  The
base64 wire string is determined by and determines this pair. -/
structure Jwt where
  claims : Claims
  sig : String
deriving DecidableEq, Repr

/-- HMAC-SHA256 over the encoded claims, keyed by the server secret —
modelled as a deterministic tag of secret and payload. -/
def macSign (secret : String) (c : Claims) : String :=
  secret ++ ("." ++ c.sub ++ ("." ++ (toString c.exp ++ ("." ++ (toString c.iat ++
    ("." ++ c.membership_tier ++ ("." ++ toString c.mfa_verified)))))))

/-- jsonwebtoken `encode` with `Header::default()` (HS256). -/
def jwtEncode (secret : String) (c : Claims) : Jwt :=
  { claims := c, sig := macSign secret c }

/-- jsonwebtoken decode errors relevant here; the caller collapses them. -/
inductive JwtError
  | InvalidSignature
  | ExpiredSignature
deriving DecidableEq, Repr

/-- jsonwebtoken `Validation`: the fields `verify_token` relies on. -/
structure Validation where
  leeway : Int
  validate_exp : Bool
deriving DecidableEq, Repr

/-- `Validation::default()` = `Validation::new(Algorithm::HS256)`: the
library defaults `leeway` to 60 seconds and validates `exp`. -/
def Validation.default : Validation :=
  { leeway := 60, validate_exp := true }

/-- jsonwebtoken `decode::<Claims>`: check the signature, then check that
`exp` is not more than `leeway` seconds in the past. -/
def jwtDecode (secret : String) (v : Validation) (now : Timestamp) (t : Jwt) :
    Except JwtError Claims :=
  if t.sig ≠ macSign secret t.claims then
    .error .InvalidSignature
  else if v.validate_exp ∧ t.claims.exp < now - v.leeway then
    .error .ExpiredSignature
  else
    .ok t.claims

/-! ### Data model (models/user.rs, models/session.rs, models/security.rs)

The migrations defining the Postgres schema are not among the sources; per
the spec the failed-login counter is a non-null integer (≥ 0, default 0),
so `failed_login_attempts` is `Int` here and the source's
`unwrap_or(0)` reads are the identity. -/

/-- models/user.rs `User` (the fields the authentication core touches). -/
structure DbUser where
  id : Nat
  email : String
  password_hash : PhcString
  membership_tier : String
  created_at : Option Timestamp
  last_login : Option Timestamp
  failed_login_attempts : Int
  account_locked_until : Option Timestamp
  mfa_enabled : Bool
  email_verified : Bool
deriving DecidableEq, Repr

/-- models/user.rs `UserPublic`. -/
structure UserPublic where
  id : Nat
  email : String
  membership_tier : String
  created_at : Timestamp
  last_login : Option Timestamp
  mfa_enabled : Bool
  email_verified : Bool
deriving DecidableEq, Repr

/-- models/user.rs `User::is_locked`: locked iff `account_locked_until`
is set and strictly in the future. -/
def DbUser.is_locked (u : DbUser) (now : Timestamp) : Bool :=
  match u.account_locked_until with
  | some locked_until => decide (locked_until > now)
  | none => false

/-- models/user.rs `User::to_public` (`created_at.unwrap_or_else(Utc::now)`). -/
def DbUser.to_public (u : DbUser) (now : Timestamp) : UserPublic :=
  { id := u.id
    email := u.email
    membership_tier := u.membership_tier
    created_at := u.created_at.getD now
    last_login := u.last_login
    mfa_enabled := u.mfa_enabled
    email_verified := u.email_verified }

/-- A `user_sessions` row (complete_login's INSERT). -/
structure Session where
  user_id : Nat
  session_token : Jwt
  refresh_token : String
  expires_at : Timestamp
  ip_address : Option String
  user_agent : Option String
deriving DecidableEq, Repr

/-- A `security_events` row; `details` holds the `failed_attempts` value
of the only JSON payload the core writes. -/
structure SecurityEvent where
  user_id : Option Nat
  event_type : String
  ip_address : Option String
  user_agent : Option String
  details : Option Int
  risk_level : Int
deriving DecidableEq, Repr

/-- A `destruction_logs` row (security.rs `trigger_destruction` INSERT). -/
structure DestructionLog where
  user_id : Nat
  trigger_type : String
  data_types_destroyed : List String
  success : Bool
deriving DecidableEq, Repr

/-- A `subscriptions` row (only its owner matters to destruction). -/
structure Subscription where
  user_id : Nat
deriving DecidableEq, Repr

/-- The shared Postgres state: the five tables the core reads or writes. -/
structure Db where
  users : List DbUser
  sessions : List Session
  security_events : List SecurityEvent
  subscriptions : List Subscription
  destruction_logs : List DestructionLog
deriving DecidableEq, Repr

/-! ### Error enums -/

/-- auth.rs `AuthError` (the `sqlx::Error` payload of `DatabaseError` is
dropped). -/
inductive AuthError
  | InvalidCredentials
  | UserNotFound
  | AccountLocked
  | EmailNotVerified
  | MfaRequired
  | InvalidToken
  | DatabaseError
  | HashingError
  | TokenGenerationError
  | DestructionTriggered
  | UserAlreadyExists
deriving DecidableEq, Repr

/-- security.rs `SecurityError`. -/
inductive SecurityError
  | DatabaseError
  | DestructionFailed
deriving DecidableEq, Repr

/-! ### Security service (security.rs) -/

/-- security.rs `calculate_risk_level` (the ip argument is unused there too). -/
def calculate_risk_level (event_type : String) (_ip_address : Option String) : Int :=
  match event_type with
  | "login_failed" => 3
  | "login_success" => 1
  | "user_registered" => 2
  | "password_reset" => 4
  | "destruction_triggered" => 10
  | "suspicious_activity" => 7
  | "multiple_failed_logins" => 6
  | "account_locked" => 5
  | _ => 1

/-- security.rs `log_security_event`: derive the risk level and append one
row; the INSERT's own result is discarded (`let _ = ...`), so the caller's
flow never fails here. -/
def log_security_event (db : Db) (user_id : Option Nat) (event_type : String)
    (ip_address : Option String) (user_agent : Option String)
    (details : Option Int) : Db :=
  let risk_level := calculate_risk_level event_type ip_address
  { db with security_events := db.security_events ++
      [{ user_id := user_id, event_type := event_type, ip_address := ip_address,
         user_agent := user_agent, details := details, risk_level := risk_level }] }

/-- The five statements of the destruction transaction, in source order. -/
inductive DStep
  | insertLog
  | delSessions
  | delEvents
  | delSubs
  | delUser
deriving DecidableEq, Repr

/-- The statement order `trigger_destruction` executes. -/
def destructionOrder : List DStep :=
  [.insertLog, .delSessions, .delEvents, .delSubs, .delUser]

/-- Modelled from the spec: the Postgres migrations are not among the
sources, and they are what gives `destruction_logs.user_id` its foreign
key to `users.id`.  Per the spec's data model ("DestructionLog — record of
an executed destruction: id, user id, ...") and §5 ("the other must fail
gracefully when its transaction finds the user row already gone"), the
write-ahead INSERT fails exactly when the referenced user row no longer
exists. -/
def destructionLogInsertOk (db : Db) (user_id : Nat) : Bool :=
  db.users.any (fun u => u.id == user_id)

/-- security.rs `trigger_destruction`: one transaction that inserts the
write-ahead `destruction_logs` row, deletes the user's sessions, security
events and subscriptions, deletes the user row, and commits.  `fail`
injects a statement-level fault; any failing statement aborts via `?`
(so the transaction is dropped and rolls back, and the returned error is
`SecurityError::DatabaseError` from the `From<sqlx::Error>` impl).
Returns the post-state, the trace of statements that completed inside the
transaction, and the result. -/
def trigger_destruction (fail : DStep → Bool) (db : Db) (user_id : Nat)
    (trigger_type : String) : Db × List DStep × Except SecurityError Unit :=
  if fail .insertLog || !destructionLogInsertOk db user_id then
    (db, [], .error .DatabaseError)
  else
    let logRow : DestructionLog :=
      { user_id := user_id, trigger_type := trigger_type,
        data_types_destroyed := ["user_data", "sessions", "files"],
        success := true }
    let db1 := { db with destruction_logs := db.destruction_logs ++ [logRow] }
    if fail .delSessions then (db, [.insertLog], .error .DatabaseError)
    else
      let sessions2 := db1.sessions.filter (fun s => s.user_id != user_id)
      let db2 := { db1 with sessions := sessions2 }
      if fail .delEvents then (db, [.insertLog, .delSessions], .error .DatabaseError)
      else
        let events3 := db2.security_events.filter (fun e => e.user_id != some user_id)
        let db3 := { db2 with security_events := events3 }
        if fail .delSubs then
          (db, [.insertLog, .delSessions, .delEvents], .error .DatabaseError)
        else
          let subs4 := db3.subscriptions.filter (fun s => s.user_id != user_id)
          let db4 := { db3 with subscriptions := subs4 }
          if fail .delUser then
            (db, [.insertLog, .delSessions, .delEvents, .delSubs],
             .error .DatabaseError)
          else
            let users5 := db4.users.filter (fun u => u.id != user_id)
            let db5 := { db4 with users := users5 }
            (db5, destructionOrder, .ok ())

/-! ### Authentication service (auth.rs) -/

/-- auth.rs `AuthService`: the configuration the embedded operations read
(`db`, the `SecurityService` handle and the RNG are explicit parameters of
each operation here). -/
structure AuthService where
  jwt_secret : String
  jwt_expiration : Int
deriving DecidableEq, Repr

/-- models/user.rs `LoginRequest`. -/
structure LoginRequest where
  email : String
  password : String
deriving DecidableEq, Repr

/-- auth.rs `LoginResponse`. -/
structure LoginResponse where
  access_token : Jwt
  refresh_token : String
  user : UserPublic
  expires_at : Timestamp
deriving DecidableEq, Repr

/-- auth.rs `LoginStep`. -/
structure LoginStep where
  step : Nat
  session_id : String
  expires_at : Timestamp
  requires_mfa : Bool
  message : String
deriving DecidableEq, Repr

/-- auth.rs `find_user_by_email`: `SELECT * FROM users WHERE email = $1`
with `fetch_one`; `RowNotFound` maps to `UserNotFound`, other errors to
`DatabaseError`. -/
def find_user_by_email (db : Db) (email : String) : Except AuthError DbUser :=
  match db.users.find? (fun u => u.email == email) with
  | some u => .ok u
  | none => .error .UserNotFound

/-- `UPDATE users SET ... WHERE id = $1` applied row-wise. -/
def updateWhere (user_id : Nat) (f : DbUser → DbUser) (l : List DbUser) :
    List DbUser :=
  l.map (fun v => if v.id == user_id then f v else v)

/-- The SET clause of `increment_failed_attempts`: add 1 to the counter
and, exactly when the incremented counter reaches 3, set the 15-minute
lock (otherwise `account_locked_until` keeps its old value). -/
def updateFailedAttempts (now : Timestamp) (u : DbUser) : DbUser :=
  { u with
    failed_login_attempts := u.failed_login_attempts + 1,
    account_locked_until :=
      if u.failed_login_attempts + 1 ≥ 3 then some (now + 15 * 60)
      else u.account_locked_until }

/-- auth.rs `increment_failed_attempts`: atomic UPDATE/RETURNING of the
failed counter (with the conditional 15-minute lock), then a best-effort
`login_failed` security event, then — when the new counter is ≥ 5 — the
Destruction Coordinator (whose own error is discarded, only traced) and
the `DestructionTriggered` failure.  `fetch_one` on a non-matching id is
`RowNotFound`, which `?` converts to `DatabaseError`. -/
def increment_failed_attempts (fail : DStep → Bool) (now : Timestamp)
    (db : Db) (user_id : Nat) (ip_address : Option String) :
    Except AuthError Int × Db :=
  match db.users.find? (fun u => u.id == user_id) with
  | none => (.error .DatabaseError, db)
  | some u =>
    let db1 := { db with users := updateWhere user_id (updateFailedAttempts now) db.users }
    let failed_count := u.failed_login_attempts + 1
    let db2 := log_security_event db1 (some user_id) ("login_failed")
      ip_address none (some failed_count)
    if failed_count ≥ 5 then
      let dres := trigger_destruction fail db2 user_id ("failed_login_threshold")
      (.error .DestructionTriggered, dres.1)
    else
      (.ok failed_count, db2)

/-- auth.rs `generate_access_token`: claims built from the user snapshot
(`mfa_verified` is the negation of `mfa_enabled`), HS256-signed with the
process-wide secret. -/
def AuthService.generate_access_token (svc : AuthService) (now : Timestamp)
    (u : DbUser) : Jwt :=
  jwtEncode svc.jwt_secret
    { sub := toString u.id
      exp := now + svc.jwt_expiration
      iat := now
      membership_tier := u.membership_tier
      mfa_verified := !u.mfa_enabled }

/-- The SET clause of `complete_login`'s success UPDATE:
`last_login = NOW(), failed_login_attempts = 0`. -/
def resetOnLogin (now : Timestamp) (u : DbUser) : DbUser :=
  { u with last_login := some now, failed_login_attempts := 0 }

/-- auth.rs `complete_login`: fetch the user, verify the password (a
mismatch runs `increment_failed_attempts`, whose error — e.g.
`DestructionTriggered` — propagates through `?`, otherwise
`InvalidCredentials` is returned), then check the lock, then issue tokens,
insert the session row, reset the counter and `last_login`, and log
`login_success`.  `refresh_token` stands for the random opaque string the
source draws from `SystemRandom`. -/
def AuthService.complete_login (svc : AuthService) (fail : DStep → Bool)
    (now : Timestamp) (refresh_token : String) (db : Db)
    (request : LoginRequest) (ip_address : Option String)
    (user_agent : Option String) : Except AuthError LoginResponse × Db :=
  match find_user_by_email db request.email with
  | .error e => (.error e, db)
  | .ok user =>
    if !verify_password request.password user.password_hash then
      match increment_failed_attempts fail now db user.id ip_address with
      | (.error e, db1) => (.error e, db1)
      | (.ok _, db1) => (.error .InvalidCredentials, db1)
    else if user.is_locked now then
      (.error .AccountLocked, db)
    else
      let access_token := svc.generate_access_token now user
      let expires_at := now + svc.jwt_expiration
      let sessionRow : Session :=
        { user_id := user.id, session_token := access_token,
          refresh_token := refresh_token, expires_at := expires_at,
          ip_address := ip_address, user_agent := user_agent }
      let db1 := { db with sessions := db.sessions ++ [sessionRow] }
      let db2 := { db1 with users := updateWhere user.id (resetOnLogin now) db1.users }
      let db3 := log_security_event db2 (some user.id) ("login_success")
        ip_address user_agent none
      (.ok { access_token := access_token, refresh_token := refresh_token,
             user := user.to_public now, expires_at := expires_at }, db3)

/-- auth.rs `initiate_login`: fetch the user, reject when locked, and
return the 5-minute step-1 marker; no password check, no database write
and no security event.  `session_id` stands for the random opaque string
the source generates. -/
def initiate_login (now : Timestamp) (session_id : String) (db : Db)
    (email : String) (_ip_address : Option String) :
    Except AuthError LoginStep :=
  match find_user_by_email db email with
  | .error e => .error e
  | .ok user =>
    if user.is_locked now then .error .AccountLocked
    else
      .ok { step := 1, session_id := session_id, expires_at := now + 5 * 60,
            requires_mfa := user.mfa_enabled, message := "Enter your password" }

/-- auth.rs `verify_token`: jsonwebtoken `decode` with
`Validation::default()`; every decode failure collapses to
`InvalidToken`. -/
def AuthService.verify_token (svc : AuthService) (now : Timestamp)
    (token : Jwt) : Except AuthError Claims :=
  match jwtDecode svc.jwt_secret Validation.default now token with
  | .ok claims => .ok claims
  | .error _ => .error .InvalidToken

/-! ### Concrete demonstration values -/

def svcDemo : AuthService := { jwt_secret := "k", jwt_expiration := 3600 }

def userDemo : DbUser :=
  { id := 1, email := "alice@example.com",
    password_hash := hash_password ("hunter2") ("saltA"),
    membership_tier := "basic", created_at := some 0, last_login := none,
    failed_login_attempts := 0, account_locked_until := none,
    mfa_enabled := false, email_verified := false }

def dbDemo : Db :=
  { users := [userDemo], sessions := [], security_events := [],
    subscriptions := [], destruction_logs := [] }

def failDelSessions : DStep → Bool := fun s => s == DStep.delSessions

def failDelUser : DStep → Bool := fun s => s == DStep.delUser

def noFault : DStep → Bool := fun _ => false

def claimsPastOneSecond : Claims :=
  { sub := "1", exp := 99, iat := 0, membership_tier := "basic",
    mfa_verified := true }

def claimsFresh : Claims :=
  { sub := "1", exp := 3700, iat := 100, membership_tier := "basic",
    mfa_verified := true }

def jwtTampered : Jwt :=
  { claims := claimsFresh, sig := "forged" }

def userTwoFails : DbUser :=
  { userDemo with failed_login_attempts := 2 }

def dbTwoFails : Db :=
  { dbDemo with users := [userTwoFails] }

def userFourFails : DbUser :=
  { userDemo with failed_login_attempts := 4 }

def sessionDemo : Session :=
  { user_id := 1, session_token := jwtTampered, refresh_token := "r0",
    expires_at := 5000, ip_address := none, user_agent := none }

def dbFourFails : Db :=
  { dbDemo with
    users := [userFourFails]
    sessions := [sessionDemo]
    subscriptions := [{ user_id := 1 }] }

def userTwoFailsReset : DbUser :=
  { userTwoFails with last_login := some 1000, failed_login_attempts := 0 }

def userThreeFailsLocked : DbUser :=
  { userTwoFails with
    failed_login_attempts := 3
    account_locked_until := some 1900 }

def userLockedDemo : DbUser :=
  { userDemo with account_locked_until := some 2000 }

def dbLockedDemo : Db :=
  { dbDemo with users := [userLockedDemo] }

instance {ε α : Type} [DecidableEq ε] [DecidableEq α] :
    DecidableEq (Except ε α) := fun a b =>
  match a, b with
  | .ok x, .ok y =>
    if h : x = y then .isTrue (congrArg Except.ok h)
    else .isFalse (fun hc => h (Except.ok.inj hc))
  | .error e, .error e2 =>
    if h : e = e2 then .isTrue (congrArg Except.error h)
    else .isFalse (fun hc => h (Except.error.inj hc))
  | .ok _, .error _ => .isFalse (fun hc => Except.noConfusion hc)
  | .error _, .ok _ => .isFalse (fun hc => Except.noConfusion hc)

/-! ### Helper lemmas -/

theorem updateFailedAttempts_id (now : Timestamp) (u : DbUser) :
    (updateFailedAttempts now u).id = u.id := rfl

theorem updateFailedAttempts_email (now : Timestamp) (u : DbUser) :
    (updateFailedAttempts now u).email = u.email := rfl

theorem resetOnLogin_id (now : Timestamp) (u : DbUser) :
    (resetOnLogin now u).id = u.id := rfl

/-- Looking up by id after a `WHERE id = $1` row update finds the updated
row, provided the update preserves ids. -/
theorem find?_id_updateWhere (user_id : Nat) (f : DbUser → DbUser)
    (hf : ∀ v, (f v).id = v.id) (l : List DbUser) :
    (updateWhere user_id f l).find? (fun v => v.id == user_id)
      = (l.find? (fun v => v.id == user_id)).map f := by
  induction l with
  | nil => rfl
  | cons a l ih =>
    by_cases h : (a.id == user_id) = true
    · have hfa : ((f a).id == user_id) = true := by rw [hf]; exact h
      rw [updateWhere, List.map_cons,
        List.find?_cons_of_pos (p := fun v : DbUser => v.id == user_id) _
          (by simp only [h, if_true]; exact hfa),
        List.find?_cons_of_pos (p := fun v : DbUser => v.id == user_id) _ h]
      simp [h]
    · have hb : (a.id == user_id) = false := by simpa using h
      rw [updateWhere, List.map_cons,
        List.find?_cons_of_neg (p := fun v : DbUser => v.id == user_id) _ (by simp [hb]),
        List.find?_cons_of_neg (p := fun v : DbUser => v.id == user_id) _ (by simp [hb])]
      exact ih

/-- Every row of an updated table comes from a row of the original table,
either untouched or with the update applied. -/
theorem mem_updateWhere (user_id : Nat) (f : DbUser → DbUser)
    (l : List DbUser) (x : DbUser) (hx : x ∈ updateWhere user_id f l) :
    ∃ v ∈ l, x = v ∨ x = f v := by
  simp only [updateWhere, List.mem_map] at hx
  obtain ⟨v, hv, hveq⟩ := hx
  refine ⟨v, hv, ?_⟩
  by_cases h : v.id = user_id
  · right
    simpa [h] using hveq.symm
  · left
    simpa [h] using hveq.symm

/-- A successful `find?` by id witnesses the foreign-key check of the
destruction log INSERT. -/
theorem destructionLogInsertOk_of_find? {db : Db} {user_id : Nat} {u : DbUser}
    (h : db.users.find? (fun v => v.id == user_id) = some u) :
    destructionLogInsertOk db user_id = true := by
  have hm := List.mem_of_find?_eq_some h
  have hp := List.find?_some h
  simp only [destructionLogInsertOk, List.any_eq_true]
  exact ⟨u, hm, hp⟩

/-- Below the destruction threshold, `increment_failed_attempts` is the
counter UPDATE followed by the `login_failed` event, returning the new
count. -/
theorem increment_below_threshold (fail : DStep → Bool) (now : Timestamp)
    (db : Db) (user_id : Nat) (ip : Option String) (u : DbUser)
    (hid : db.users.find? (fun v => v.id == user_id) = some u)
    (hbelow : u.failed_login_attempts + 1 < 5) :
    increment_failed_attempts fail now db user_id ip
      = (.ok (u.failed_login_attempts + 1),
         log_security_event
           { db with users := updateWhere user_id (updateFailedAttempts now) db.users }
           (some user_id) ("login_failed") ip none
           (some (u.failed_login_attempts + 1))) := by
  unfold increment_failed_attempts
  rw [hid]
  simp only []
  rw [if_neg (by omega)]

/-- At the destruction threshold, `increment_failed_attempts` performs the
counter UPDATE, logs `login_failed`, invokes the Destruction Coordinator,
and returns `DestructionTriggered` whatever the coordinator's result. -/
theorem increment_at_threshold (fail : DStep → Bool) (now : Timestamp)
    (db : Db) (user_id : Nat) (ip : Option String) (u : DbUser)
    (hid : db.users.find? (fun v => v.id == user_id) = some u)
    (hthr : u.failed_login_attempts + 1 ≥ 5) :
    increment_failed_attempts fail now db user_id ip
      = (.error .DestructionTriggered,
         (trigger_destruction fail
           (log_security_event
             { db with users := updateWhere user_id (updateFailedAttempts now) db.users }
             (some user_id) ("login_failed") ip none
             (some (u.failed_login_attempts + 1)))
           user_id ("failed_login_threshold")).1) := by
  unfold increment_failed_attempts
  rw [hid]
  simp only []
  rw [if_pos (by omega)]

/-- Whenever the final user-row DELETE of the destruction transaction is
going to fail, the transaction leaves the database exactly as it was. -/
theorem trigger_destruction_rollback (fail : DStep → Bool) (db : Db)
    (user_id : Nat) (trigger_type : String)
    (hfail : fail DStep.delUser = true) :
    (trigger_destruction fail db user_id trigger_type).1 = db := by
  unfold trigger_destruction
  cases hI : fail DStep.insertLog <;>
    cases hOk : destructionLogInsertOk db user_id <;>
      cases hS : fail DStep.delSessions <;>
        cases hE : fail DStep.delEvents <;>
          cases hB : fail DStep.delSubs <;>
            simp [hI, hOk, hS, hE, hB, hfail]

/-- `complete_login` on a lookup failure returns that error and writes
nothing. -/
theorem complete_login_find_error (svc : AuthService) (fail : DStep → Bool)
    (now : Timestamp) (rt : String) (db : Db) (request : LoginRequest)
    (ip ua : Option String) (e : AuthError)
    (hu : find_user_by_email db request.email = .error e) :
    svc.complete_login fail now rt db request ip ua = (.error e, db) := by
  unfold AuthService.complete_login
  rw [hu]

/-- `complete_login` on a password mismatch is `increment_failed_attempts`
followed by `InvalidCredentials` (or the increment's own error, which the
`?` operator propagates). -/
theorem complete_login_wrong_password (svc : AuthService) (fail : DStep → Bool)
    (now : Timestamp) (rt : String) (db : Db) (request : LoginRequest)
    (ip ua : Option String) (u : DbUser)
    (hu : find_user_by_email db request.email = .ok u)
    (hpw : verify_password request.password u.password_hash = false) :
    svc.complete_login fail now rt db request ip ua
      = (match increment_failed_attempts fail now db u.id ip with
         | (.error e, db1) => (.error e, db1)
         | (.ok _, db1) => (.error .InvalidCredentials, db1)) := by
  unfold AuthService.complete_login
  rw [hu]
  simp only [hpw, Bool.not_false, if_true]

/-- `complete_login` on a correct password for a locked account returns
`AccountLocked` and writes nothing — this branch is only reached after
password verification. -/
theorem complete_login_locked (svc : AuthService) (fail : DStep → Bool)
    (now : Timestamp) (rt : String) (db : Db) (request : LoginRequest)
    (ip ua : Option String) (u : DbUser)
    (hu : find_user_by_email db request.email = .ok u)
    (hpw : verify_password request.password u.password_hash = true)
    (hlocked : u.is_locked now = true) :
    svc.complete_login fail now rt db request ip ua
      = (.error .AccountLocked, db) := by
  unfold AuthService.complete_login
  rw [hu]
  simp only [hpw, Bool.not_true, if_false, hlocked, if_true]
  rfl

/-- `complete_login` on a correct password for an unlocked account issues
the tokens, inserts the session row, resets the user's counter and
`last_login`, and logs `login_success`. -/
theorem complete_login_success (svc : AuthService) (fail : DStep → Bool)
    (now : Timestamp) (rt : String) (db : Db) (request : LoginRequest)
    (ip ua : Option String) (u : DbUser)
    (hu : find_user_by_email db request.email = .ok u)
    (hpw : verify_password request.password u.password_hash = true)
    (hunlocked : u.is_locked now = false) :
    svc.complete_login fail now rt db request ip ua
      = (.ok { access_token := svc.generate_access_token now u,
               refresh_token := rt,
               user := u.to_public now,
               expires_at := now + svc.jwt_expiration },
         log_security_event
           { db with
             sessions := db.sessions ++
               [{ user_id := u.id, session_token := svc.generate_access_token now u,
                  refresh_token := rt, expires_at := now + svc.jwt_expiration,
                  ip_address := ip, user_agent := ua }]
             users := updateWhere u.id (resetOnLogin now)
               ({ db with sessions := db.sessions ++
                  [{ user_id := u.id, session_token := svc.generate_access_token now u,
                     refresh_token := rt, expires_at := now + svc.jwt_expiration,
                     ip_address := ip, user_agent := ua }] } : Db).users }
           (some u.id) ("login_success") ip ua none) := by
  unfold AuthService.complete_login
  rw [hu]
  simp only [hpw, Bool.not_true, if_false, hunlocked]
  rfl

/-- With no statement fault and the user row present, the destruction
transaction commits all five statements. -/
theorem trigger_destruction_success (fail : DStep → Bool) (db : Db)
    (user_id : Nat) (trigger_type : String) (hnf : ∀ s, fail s = false)
    (hok : destructionLogInsertOk db user_id = true) :
    trigger_destruction fail db user_id trigger_type
      = ({ users := db.users.filter (fun u => u.id != user_id),
           sessions := db.sessions.filter (fun s => s.user_id != user_id),
           security_events :=
             db.security_events.filter (fun e => e.user_id != some user_id),
           subscriptions := db.subscriptions.filter (fun s => s.user_id != user_id),
           destruction_logs := db.destruction_logs ++
             [{ user_id := user_id, trigger_type := trigger_type,
                data_types_destroyed := ["user_data", "sessions", "files"],
                success := true }] },
         destructionOrder, .ok ()) := by
  simp [trigger_destruction, hnf, hok]

/-- A failed lookup of the users table is the `UserNotFound` error. -/
theorem find_user_by_email_eq_none (db : Db) (email : String)
    (h : db.users.find? (fun v => v.email == email) = none) :
    find_user_by_email db email = .error .UserNotFound := by
  unfold find_user_by_email
  rw [h]

/-! ### Claims -/

/-- C7: for every password `P`, `verify_password P (hash_password P)` is
true, and two hashes of the same password under distinct salts are
distinct strings yet both verify against `P`. -/
theorem C7_hash_verify_roundtrip (password salt1 salt2 : String)
    (hsalts : salt1 ≠ salt2) :
    verify_password password (hash_password password salt1) = true ∧
    verify_password password (hash_password password salt2) = true ∧
    hash_password password salt1 ≠ hash_password password salt2 := by
  refine ⟨by simp [verify_password, hash_password], by simp [verify_password, hash_password], ?_⟩
  intro h
  exact hsalts (congrArg PhcString.salt h)

/-- Witness for C7 at password "hunter2" and salts "saltA" / "saltB". -/
theorem C7_hash_verify_roundtrip_witness :
    verify_password ("hunter2") (hash_password ("hunter2") ("saltA")) = true ∧
    verify_password ("hunter2") (hash_password ("hunter2") ("saltB")) = true ∧
    hash_password ("hunter2") ("saltA") ≠ hash_password ("hunter2") ("saltB") :=
  C7_hash_verify_roundtrip ("hunter2") ("saltA") ("saltB") (by decide)

/-- C4 counterexample: a token whose `exp` is one second in the past
(`exp = 99`, verified at `now = 100`) still verifies successfully, because
`Validation::default()` carries a 60-second leeway — refuting the claim
that it already fails with `InvalidToken`. -/
theorem C4_counterexample_one_second_past :
    svcDemo.verify_token 100 (jwtEncode ("k") claimsPastOneSecond)
        = .ok claimsPastOneSecond ∧
      svcDemo.verify_token 100 (jwtEncode ("k") claimsPastOneSecond)
        ≠ .error .InvalidToken := by
  constructor
  · decide
  · decide

/-- C4 (amended): `verify_token` enforces expiry with the 60-second
default leeway of jsonwebtoken's `Validation::default()` — a
well-signed token fails exactly when its `exp` is more than 60 seconds in
the past — every signature or expiry failure collapses to the single
`InvalidToken` error, and a freshly issued token with
`exp = now + 3600` verifies successfully. -/
theorem C4_verify_token_leeway (svc : AuthService) (now : Timestamp)
    (c : Claims) (t : Jwt)
    (htamper : t.sig ≠ macSign svc.jwt_secret t.claims) :
    (svc.verify_token now (jwtEncode svc.jwt_secret c)
        = if c.exp < now - 60 then .error .InvalidToken else .ok c) ∧
      svc.verify_token now t = .error .InvalidToken ∧
      (c.exp = now + 3600 →
        svc.verify_token now (jwtEncode svc.jwt_secret c) = .ok c) := by
  have hgood : svc.verify_token now (jwtEncode svc.jwt_secret c)
      = if c.exp < now - 60 then .error .InvalidToken else .ok c := by
    by_cases hexp : c.exp < now - 60
    · simp [AuthService.verify_token, jwtDecode, jwtEncode, Validation.default, hexp]
    · simp [AuthService.verify_token, jwtDecode, jwtEncode, Validation.default, hexp]
  refine ⟨hgood, ?_, ?_⟩
  · simp [AuthService.verify_token, jwtDecode, htamper]
  · intro hfresh
    rw [hgood, if_neg (by omega)]

/-- Witness for C4's amended theorem: the tampered token is rejected and
the fresh token accepted, at concrete inputs. -/
theorem C4_verify_token_leeway_witness :
    svcDemo.verify_token 100 (jwtEncode ("k") claimsFresh) = .ok claimsFresh ∧
    svcDemo.verify_token 100 jwtTampered = .error .InvalidToken := by
  have h := C4_verify_token_leeway svcDemo 100 claimsFresh jwtTampered (by decide)
  exact ⟨h.2.2 (by decide), h.2.1⟩

/-- C1 counterexample: with the session-deletion statement failing, the
coordinator reports `SecurityError.DatabaseError` (via the
`From<sqlx::Error>` conversion behind `?`), not the claimed
`DestructionFailed`, which no code path ever constructs. -/
theorem C1_counterexample_error_variant :
    (trigger_destruction failDelSessions dbDemo 1 ("t")).2.2
        = .error .DatabaseError ∧
      (trigger_destruction failDelSessions dbDemo 1 ("t")).2.2
        ≠ .error .DestructionFailed := by
  constructor
  · decide
  · decide

/-- C1 (amended): inside one transaction `trigger_destruction` executes
exactly the five statements in the order insert-DestructionLog, delete
sessions, delete security events, delete subscriptions, delete user, and
commits their effects; if any statement fails, the whole transaction rolls
back (the post-state is the pre-state, no partial deletion observable) and
the coordinator returns `SecurityError.DatabaseError` (not the declared
but never-constructed `DestructionFailed`). -/
theorem C1_destruction_order_atomicity (fail : DStep → Bool) (db : Db)
    (user_id : Nat) (trigger_type : String)
    (huser : destructionLogInsertOk db user_id = true) :
    ((∀ s, fail s = false) →
      trigger_destruction fail db user_id trigger_type =
        ({ users := db.users.filter (fun u => u.id != user_id),
           sessions := db.sessions.filter (fun s => s.user_id != user_id),
           security_events :=
             db.security_events.filter (fun e => e.user_id != some user_id),
           subscriptions := db.subscriptions.filter (fun s => s.user_id != user_id),
           destruction_logs := db.destruction_logs ++
             [{ user_id := user_id, trigger_type := trigger_type,
                data_types_destroyed := ["user_data", "sessions", "files"],
                success := true }] },
         destructionOrder, .ok ())) ∧
    ((∃ s, fail s = true) →
      (trigger_destruction fail db user_id trigger_type).1 = db ∧
      (trigger_destruction fail db user_id trigger_type).2.2
          = .error .DatabaseError ∧
      ∃ k, (trigger_destruction fail db user_id trigger_type).2.1
          = destructionOrder.take k) := by
  constructor
  · intro hall
    simp [trigger_destruction, hall, huser]
  · intro hsome
    cases hI : fail DStep.insertLog with
    | true =>
      refine ⟨?_, ?_, 0, ?_⟩ <;> simp [trigger_destruction, hI]
    | false =>
      cases hS : fail DStep.delSessions with
      | true =>
        refine ⟨?_, ?_, 1, ?_⟩ <;>
          simp [trigger_destruction, hI, hS, huser, destructionOrder]
      | false =>
        cases hE : fail DStep.delEvents with
        | true =>
          refine ⟨?_, ?_, 2, ?_⟩ <;>
            simp [trigger_destruction, hI, hS, hE, huser, destructionOrder]
        | false =>
          cases hB : fail DStep.delSubs with
          | true =>
            refine ⟨?_, ?_, 3, ?_⟩ <;>
              simp [trigger_destruction, hI, hS, hE, hB, huser, destructionOrder]
          | false =>
            cases hU : fail DStep.delUser with
            | true =>
              refine ⟨?_, ?_, 4, ?_⟩ <;>
                simp [trigger_destruction, hI, hS, hE, hB, hU, huser,
                  destructionOrder]
            | false =>
              exfalso
              obtain ⟨s, hs⟩ := hsome
              cases s <;> simp_all

/-- Witness for C1's amended theorem: both the fault-free run and a run
with an injected session-deletion fault, at a concrete database. -/
theorem C1_destruction_order_atomicity_witness :
    (trigger_destruction noFault dbDemo 1 ("t")).2.2 = .ok () ∧
    (trigger_destruction noFault dbDemo 1 ("t")).2.1 = destructionOrder ∧
    (trigger_destruction failDelSessions dbDemo 1 ("t")).1 = dbDemo := by
  have h := C1_destruction_order_atomicity noFault dbDemo 1 ("t") (by decide)
  have hfault := C1_destruction_order_atomicity failDelSessions dbDemo 1 ("t")
    (by decide)
  have hok := h.1 (fun s => rfl)
  refine ⟨?_, ?_, ?_⟩
  · rw [hok]
  · rw [hok]
  · exact (hfault.2 ⟨DStep.delSessions, rfl⟩).1

/-- C8: invoking `trigger_destruction` for a user whose row is already
gone fails cleanly — the write-ahead `destruction_logs` INSERT violates
its foreign key, the transaction aborts with an error, and the database is
untouched (no silent idempotent success, matching the single
Armed → Executed transition). -/
theorem C8_double_destruction_fails (fail : DStep → Bool) (db : Db)
    (user_id : Nat) (trigger_type : String)
    (hgone : ∀ u ∈ db.users, u.id ≠ user_id) :
    trigger_destruction fail db user_id trigger_type
      = (db, [], .error .DatabaseError) := by
  have hok : destructionLogInsertOk db user_id = false := by
    rw [destructionLogInsertOk, List.any_eq_false]
    intro u hu
    simpa using hgone u hu
  simp [trigger_destruction, hok]

/-- Witness for C8: re-invoking destruction on the database from which the
demo user was already destroyed. -/
theorem C8_double_destruction_fails_witness :
    trigger_destruction noFault (trigger_destruction noFault dbDemo 1 ("t")).1
        1 ("second") =
      ((trigger_destruction noFault dbDemo 1 ("t")).1, [], .error .DatabaseError) := by
  have h := C8_double_destruction_fails noFault
    (trigger_destruction noFault dbDemo 1 ("t")).1 1 ("second") (by decide)
  exact h

/-- C5: each `increment_failed_attempts` call adds exactly 1 to the
stored counter and sets `account_locked_until` to 15 minutes from now
exactly when the new count is at least 3, leaving it unchanged otherwise
(stated below the destruction threshold, where the updated row remains
observable): a fresh user is still unlocked after 2 failed attempts and
locked after the 3rd. -/
theorem C5_increment_lock_threshold (fail : DStep → Bool) (now : Timestamp)
    (db : Db) (user_id : Nat) (ip : Option String) (u : DbUser)
    (hid : db.users.find? (fun v => v.id == user_id) = some u)
    (hbelow : u.failed_login_attempts + 1 < 5) :
    (increment_failed_attempts fail now db user_id ip).1
        = .ok (u.failed_login_attempts + 1) ∧
      (increment_failed_attempts fail now db user_id ip).2.users.find?
          (fun v => v.id == user_id)
        = some { u with
            failed_login_attempts := u.failed_login_attempts + 1,
            account_locked_until :=
              if u.failed_login_attempts + 1 ≥ 3 then some (now + 15 * 60)
              else u.account_locked_until } ∧
      (u.failed_login_attempts + 1 ≥ 3 →
        ∀ v, (increment_failed_attempts fail now db user_id ip).2.users.find?
            (fun w => w.id == user_id) = some v → v.is_locked now = true) := by
  rw [increment_below_threshold fail now db user_id ip u hid hbelow]
  have hfind : (log_security_event
        { db with users := updateWhere user_id (updateFailedAttempts now) db.users }
        (some user_id) ("login_failed") ip none
        (some (u.failed_login_attempts + 1))).users.find?
      (fun v => v.id == user_id) = some (updateFailedAttempts now u) := by
    show (updateWhere user_id (updateFailedAttempts now) db.users).find? _ = _
    rw [find?_id_updateWhere user_id (updateFailedAttempts now)
      (updateFailedAttempts_id now) db.users, hid]
    rfl
  refine ⟨rfl, hfind, ?_⟩
  intro h3 v hv
  rw [hfind] at hv
  have hv2 : v = updateFailedAttempts now u := Option.some.inj hv.symm
  rw [hv2]
  unfold updateFailedAttempts
  rw [if_pos h3]
  show decide ((now + 15 * 60 : Int) > now) = true
  simp only [decide_eq_true_eq]
  linarith

/-- Witness for C5: the demo user's 3rd failed attempt returns count 3 and
sets the lock expiring 15 minutes after `now = 1000`; the stored row shows
counter 3 and `account_locked_until = 1900`. -/
theorem C5_increment_lock_threshold_witness :
    (increment_failed_attempts noFault 1000 dbTwoFails 1 none).1 = .ok 3 ∧
    (increment_failed_attempts noFault 1000 dbTwoFails 1 none).2.users.find?
        (fun v => v.id == 1)
      = some userThreeFailsLocked := by
  have h := C5_increment_lock_threshold noFault 1000 dbTwoFails 1 none
    userTwoFails (by decide) (by decide)
  refine ⟨h.1, ?_⟩
  rw [h.2.1]
  decide

/-- C10: when the post-increment count is at least 5,
`increment_failed_attempts` returns `DestructionTriggered` unconditionally:
with a fault injected into the destruction transaction's final DELETE, the
transaction rolls back — no destruction log row persists and the account
still exists with the incremented counter — yet the caller still observes
`DestructionTriggered`, the coordinator's error having been discarded
(only traced). -/
theorem C10_destruction_error_discarded (fail : DStep → Bool) (now : Timestamp)
    (db : Db) (user_id : Nat) (ip : Option String) (u : DbUser)
    (hid : db.users.find? (fun v => v.id == user_id) = some u)
    (hthr : u.failed_login_attempts + 1 ≥ 5)
    (hfail : fail DStep.delUser = true) :
    (increment_failed_attempts fail now db user_id ip).1
        = .error .DestructionTriggered ∧
      (increment_failed_attempts fail now db user_id ip).2.users.find?
          (fun v => v.id == user_id)
        = some (updateFailedAttempts now u) ∧
      (increment_failed_attempts fail now db user_id ip).2.destruction_logs
        = db.destruction_logs := by
  rw [increment_at_threshold fail now db user_id ip u hid hthr]
  rw [trigger_destruction_rollback fail _ user_id _ hfail]
  refine ⟨rfl, ?_, rfl⟩
  show (updateWhere user_id (updateFailedAttempts now) db.users).find? _ = _
  rw [find?_id_updateWhere user_id (updateFailedAttempts now)
    (updateFailedAttempts_id now) db.users, hid]
  rfl

/-- Witness for C10: the demo user's 5th failed attempt with the user-row
DELETE failing — the caller sees `DestructionTriggered`, the user row
survives with counter 5, and no destruction log was committed. -/
theorem C10_destruction_error_discarded_witness :
    (increment_failed_attempts failDelUser 1000 dbFourFails 1 none).1
        = .error .DestructionTriggered ∧
      (increment_failed_attempts failDelUser 1000 dbFourFails 1 none).2.users.find?
          (fun v => v.id == 1)
        = some (updateFailedAttempts 1000 userFourFails) ∧
      (increment_failed_attempts failDelUser 1000 dbFourFails 1 none).2.destruction_logs
        = [] := by
  exact C10_destruction_error_discarded failDelUser 1000 dbFourFails 1 none
    userFourFails (by decide) (by decide) (by decide)

/-- C3 counterexample: at `now = 1000` the demo account is locked until
2000, yet `complete_login` with a wrong password returns
`InvalidCredentials` — not the claimed `AccountLocked` — and the stored
counter moves from 0 to 1, refuting both "AccountLocked regardless of the
password" and "leaves the counter unchanged". -/
theorem C3_counterexample_locked_wrong_password :
    (svcDemo.complete_login noFault 1000 ("r") dbLockedDemo
        { email := "alice@example.com", password := "wrong" } none none).1
        = .error .InvalidCredentials ∧
      ((svcDemo.complete_login noFault 1000 ("r") dbLockedDemo
          { email := "alice@example.com", password := "wrong" } none none).2.users.find?
          (fun v => v.id == 1)).map DbUser.failed_login_attempts
        = some 1 := by
  constructor
  · decide
  · decide

/-- C3 (amended): in `complete_login` password verification precedes the
lock check: for a user whose `account_locked_until` lies in the future, a
correct password yields `AccountLocked` with the database (hence the
counter) unchanged, while a wrong password yields `InvalidCredentials`
(below the destruction threshold) with the stored counter incremented. -/
theorem C3_password_check_precedes_lock (svc : AuthService)
    (fail : DStep → Bool) (now : Timestamp) (rt : String) (db : Db)
    (email password : String) (ip ua : Option String) (u : DbUser)
    (hu : find_user_by_email db email = .ok u)
    (hid : db.users.find? (fun v => v.id == u.id) = some u)
    (hlocked : u.is_locked now = true)
    (hbelow : u.failed_login_attempts + 1 < 5) :
    (verify_password password u.password_hash = true →
      svc.complete_login fail now rt db
          { email := email, password := password } ip ua
        = (.error .AccountLocked, db)) ∧
    (verify_password password u.password_hash = false →
      (svc.complete_login fail now rt db
          { email := email, password := password } ip ua).1
          = .error .InvalidCredentials ∧
        ((svc.complete_login fail now rt db
            { email := email, password := password } ip ua).2.users.find?
            (fun v => v.id == u.id)).map DbUser.failed_login_attempts
          = some (u.failed_login_attempts + 1)) := by
  constructor
  · intro hpw
    exact complete_login_locked svc fail now rt db _ ip ua u hu hpw hlocked
  · intro hpw
    have hw := complete_login_wrong_password svc fail now rt db
      { email := email, password := password } ip ua u hu hpw
    rw [increment_below_threshold fail now db u.id ip u hid hbelow] at hw
    refine ⟨by rw [hw], ?_⟩
    rw [hw]
    have hfind : (log_security_event
        { db with users := updateWhere u.id (updateFailedAttempts now) db.users }
        (some u.id) ("login_failed") ip none
        (some (u.failed_login_attempts + 1))).users.find?
        (fun v => v.id == u.id) = some (updateFailedAttempts now u) := by
      show (updateWhere u.id (updateFailedAttempts now) db.users).find? _ = _
      rw [find?_id_updateWhere u.id (updateFailedAttempts now)
        (updateFailedAttempts_id now) db.users, hid]
      rfl
    rw [hfind]
    rfl

/-- Witness for C3's amended theorem: the locked demo user with the
correct password is rejected with `AccountLocked` and the database is
untouched. -/
theorem C3_password_check_precedes_lock_witness :
    svcDemo.complete_login noFault 1000 ("r") dbLockedDemo
        { email := "alice@example.com", password := "hunter2" } none none
      = (.error .AccountLocked, dbLockedDemo) := by
  have h := C3_password_check_precedes_lock svcDemo noFault 1000 ("r")
    dbLockedDemo ("alice@example.com") ("hunter2") none none userLockedDemo
    (by decide) (by decide) (by decide) (by decide)
  exact h.1 (by decide)

/-- C9 counterexample: the locked demo user presents the correct password;
`complete_login` fails with the security-relevant `AccountLocked` error
yet appends no security event — the events table stays empty — refuting
"no error path returns without logging". -/
theorem C9_counterexample_locked_path_unlogged :
    (svcDemo.complete_login noFault 1000 ("r") dbLockedDemo
        { email := "alice@example.com", password := "hunter2" } none none).1
        = .error .AccountLocked ∧
      (svcDemo.complete_login noFault 1000 ("r") dbLockedDemo
          { email := "alice@example.com", password := "hunter2" } none none).2.security_events
        = [] := by
  constructor
  · decide
  · decide

/-- C9 (amended): only the failed-password path logs before failing — a
wrong-password `complete_login` (below the destruction threshold) appends
exactly one `login_failed` event (risk 3, carrying the new count) before
returning `InvalidCredentials` — whereas the `AccountLocked` path (reached
with a correct password) and the `UserNotFound` path return with the
database, security events included, unchanged; `initiate_login` and
`verify_token` never log at all. -/
theorem C9_only_failed_password_logged (svc : AuthService)
    (fail : DStep → Bool) (now : Timestamp) (rt : String) (db : Db)
    (email password : String) (ip ua : Option String) (u : DbUser)
    (hu : find_user_by_email db email = .ok u)
    (hid : db.users.find? (fun v => v.id == u.id) = some u)
    (hbelow : u.failed_login_attempts + 1 < 5) :
    (verify_password password u.password_hash = false →
      (svc.complete_login fail now rt db
          { email := email, password := password } ip ua).1
          = .error .InvalidCredentials ∧
        (svc.complete_login fail now rt db
            { email := email, password := password } ip ua).2.security_events
          = db.security_events ++
            [{ user_id := some u.id, event_type := "login_failed",
               ip_address := ip, user_agent := none,
               details := some (u.failed_login_attempts + 1),
               risk_level := 3 }]) ∧
    (verify_password password u.password_hash = true → u.is_locked now = true →
      svc.complete_login fail now rt db
          { email := email, password := password } ip ua
        = (.error .AccountLocked, db)) ∧
    (∀ email2 password2,
      find_user_by_email db email2 = .error .UserNotFound →
      svc.complete_login fail now rt db
          { email := email2, password := password2 } ip ua
        = (.error .UserNotFound, db)) := by
  refine ⟨?_, ?_, ?_⟩
  · intro hpw
    have hw := complete_login_wrong_password svc fail now rt db
      { email := email, password := password } ip ua u hu hpw
    rw [increment_below_threshold fail now db u.id ip u hid hbelow] at hw
    exact ⟨by rw [hw], by rw [hw]; rfl⟩
  · intro hpw hlocked
    exact complete_login_locked svc fail now rt db _ ip ua u hu hpw hlocked
  · intro email2 password2 hnone
    exact complete_login_find_error svc fail now rt db
      { email := email2, password := password2 } ip ua .UserNotFound hnone

/-- Witness for C9's amended theorem: the wrong-password attempt appends
the single `login_failed` event, and the unknown-email attempt leaves the
database unchanged. -/
theorem C9_only_failed_password_logged_witness :
    (svcDemo.complete_login noFault 1000 ("r") dbLockedDemo
        { email := "alice@example.com", password := "wrong" } none none).2.security_events
        = [{ user_id := some 1, event_type := "login_failed",
             ip_address := none, user_agent := none, details := some 1,
             risk_level := 3 }] ∧
      svcDemo.complete_login noFault 1000 ("r") dbLockedDemo
          { email := "nobody@example.com", password := "x" } none none
        = (.error .UserNotFound, dbLockedDemo) := by
  have h := C9_only_failed_password_logged svcDemo noFault 1000 ("r")
    dbLockedDemo ("alice@example.com") ("wrong") none none userLockedDemo
    (by decide) (by decide) (by decide)
  refine ⟨?_, ?_⟩
  · have h1 := (h.1 (by decide)).2
    rw [h1]
    decide
  · exact h.2.2 ("nobody@example.com") ("x") (by decide)

/-- C6: every successful `complete_login` resets the stored
`failed_login_attempts` to 0 and updates `last_login`, so the next failed
attempt on the post-login state is counted as attempt 1, not N+1. -/
theorem C6_counter_reset_on_success (svc : AuthService)
    (fail fail2 : DStep → Bool) (now now2 : Timestamp) (rt : String)
    (db : Db) (email password : String) (ip ua ip2 : Option String)
    (u : DbUser)
    (hu : find_user_by_email db email = .ok u)
    (hid : db.users.find? (fun v => v.id == u.id) = some u)
    (hpw : verify_password password u.password_hash = true)
    (hunlocked : u.is_locked now = false) :
    (∃ resp, (svc.complete_login fail now rt db
        { email := email, password := password } ip ua).1 = .ok resp) ∧
      (svc.complete_login fail now rt db
          { email := email, password := password } ip ua).2.users.find?
          (fun v => v.id == u.id)
        = some { u with last_login := some now, failed_login_attempts := 0 } ∧
      (increment_failed_attempts fail2 now2
          (svc.complete_login fail now rt db
            { email := email, password := password } ip ua).2 u.id ip2).1
        = .ok 1 := by
  have hs := complete_login_success svc fail now rt db
    { email := email, password := password } ip ua u hu hpw hunlocked
  have hfind : (svc.complete_login fail now rt db
      { email := email, password := password } ip ua).2.users.find?
      (fun v => v.id == u.id) = some (resetOnLogin now u) := by
    rw [hs]
    show (updateWhere u.id (resetOnLogin now) db.users).find? _ = _
    rw [find?_id_updateWhere u.id (resetOnLogin now) (resetOnLogin_id now)
      db.users, hid]
    rfl
  refine ⟨⟨_, by rw [hs]⟩, by rw [hfind]; rfl, ?_⟩
  rw [increment_below_threshold fail2 now2 _ u.id ip2 (resetOnLogin now u)
    hfind (by norm_num [resetOnLogin])]
  show Except.ok ((0 : Int) + 1) = Except.ok 1
  norm_num

/-- Witness for C6: the demo user with 2 failed attempts logs in
successfully; the stored row shows counter 0 and `last_login = 1000`, and
the next failed attempt is counted as 1. -/
theorem C6_counter_reset_on_success_witness :
    (svcDemo.complete_login noFault 1000 ("r") dbTwoFails
        { email := "alice@example.com", password := "hunter2" } none none).2.users.find?
        (fun v => v.id == 1)
        = some userTwoFailsReset ∧
      (increment_failed_attempts noFault 2000
          (svcDemo.complete_login noFault 1000 ("r") dbTwoFails
            { email := "alice@example.com", password := "hunter2" } none none).2
          1 none).1
        = .ok 1 := by
  have h := C6_counter_reset_on_success svcDemo noFault noFault 1000 2000 ("r")
    dbTwoFails ("alice@example.com") ("hunter2") none none none userTwoFails
    (by decide) (by decide) (by decide) (by decide)
  exact ⟨h.2.1, h.2.2⟩

/-- C2: a wrong-password `complete_login` that brings the stored counter
from 4 to 5 (the 5th consecutive failure) returns `DestructionTriggered`
via `increment_failed_attempts`, and — the fault-free destruction
transaction having deleted the user row — a subsequent
`find_user_by_email` for that account fails with `UserNotFound`. -/
theorem C2_fifth_failure_destroys (svc : AuthService) (fail : DStep → Bool)
    (now : Timestamp) (rt : String) (db : Db) (email password : String)
    (ip ua : Option String) (u : DbUser)
    (hnf : ∀ s, fail s = false)
    (hu : find_user_by_email db email = .ok u)
    (hid : db.users.find? (fun v => v.id == u.id) = some u)
    (hpw : verify_password password u.password_hash = false)
    (hcount : u.failed_login_attempts = 4)
    (huniq : ∀ v ∈ db.users, v.email = email → v.id = u.id) :
    (svc.complete_login fail now rt db
        { email := email, password := password } ip ua).1
        = .error .DestructionTriggered ∧
      find_user_by_email
        (svc.complete_login fail now rt db
          { email := email, password := password } ip ua).2 email
        = .error .UserNotFound := by
  have hw := complete_login_wrong_password svc fail now rt db
    { email := email, password := password } ip ua u hu hpw
  rw [increment_at_threshold fail now db u.id ip u hid (by omega)] at hw
  set db2 := log_security_event
    { db with users := updateWhere u.id (updateFailedAttempts now) db.users }
    (some u.id) ("login_failed") ip none
    (some (u.failed_login_attempts + 1)) with hdb2
  have hfind2 : db2.users.find? (fun v => v.id == u.id)
      = some (updateFailedAttempts now u) := by
    show (updateWhere u.id (updateFailedAttempts now) db.users).find? _ = _
    rw [find?_id_updateWhere u.id (updateFailedAttempts now)
      (updateFailedAttempts_id now) db.users, hid]
    rfl
  have hok := destructionLogInsertOk_of_find? hfind2
  have hnone : List.find? (fun v => v.email == email)
      (db2.users.filter (fun w => w.id != u.id)) = none := by
    rw [List.find?_eq_none]
    intro x hx hpx
    have hmem := List.mem_filter.mp hx
    obtain ⟨v, hv, hcase⟩ := mem_updateWhere u.id (updateFailedAttempts now)
      db.users x hmem.1
    have hxe : x.email = v.email := by
      cases hcase with
      | inl h => rw [h]
      | inr h => rw [h, updateFailedAttempts_email]
    have hxi : x.id = v.id := by
      cases hcase with
      | inl h => rw [h]
      | inr h => rw [h, updateFailedAttempts_id]
    have hvemail : v.email = email := by
      rw [← hxe]
      simpa using hpx
    have hxid : x.id = u.id := by rw [hxi, huniq v hv hvemail]
    have hne : x.id ≠ u.id := by simpa using hmem.2
    exact hne hxid
  refine ⟨by rw [hw], ?_⟩
  rw [hw]
  show find_user_by_email
    (trigger_destruction fail db2 u.id ("failed_login_threshold")).1 email
    = .error .UserNotFound
  rw [trigger_destruction_success fail db2 u.id ("failed_login_threshold")
    hnf hok]
  exact find_user_by_email_eq_none _ email hnone

/-- Witness for C2: the demo user at 4 stored failures presents a wrong
password; the call returns `DestructionTriggered` and the account is no
longer findable by email. -/
theorem C2_fifth_failure_destroys_witness :
    (svcDemo.complete_login noFault 1000 ("r") dbFourFails
        { email := "alice@example.com", password := "wrong" } none none).1
        = .error .DestructionTriggered ∧
      find_user_by_email
        (svcDemo.complete_login noFault 1000 ("r") dbFourFails
          { email := "alice@example.com", password := "wrong" } none none).2
        ("alice@example.com")
        = .error .UserNotFound := by
  exact C2_fifth_failure_destroys svcDemo noFault 1000 ("r") dbFourFails
    ("alice@example.com") ("wrong") none none userFourFails
    (fun s => rfl) (by decide) (by decide) (by decide) (by decide) (by decide)

end TheCircle
